import Mathlib

/-!
# Verification of the Authing client session and authentication core

Shallow embedding of the client-side session manager:

* the authenticated request pipeline (`src/frontend/src/services/api.ts`:
  `request`, `handleAuthError`),
* the session store (`src/frontend/src/stores/auth.ts`: `login`, `register`,
  `logout`, `setTokens`, `clearAuth`, `refreshUserInfo`, `setLoading`),
* the out-of-band QR login poller (`startPolling` / `stopPolling` of the
  QR login page component).

Network behaviour is supplied by an explicit environment (an oracle giving
the outcome of each network attempt), localStorage is modelled as an explicit
credential store record, and `window.location.href` assignment as a
`redirected` flag.  Every definition mirrors the control flow of the
corresponding TypeScript function.
-/

namespace Authing

/-- A user record, as described by the server (`UserResponse` in
`types/api.ts`).  Only the fields relevant to the session manager are kept;
optional fields are `Option`s as in the TypeScript interface. -/
structure UserResponse where
  id : Nat
  user_pool_id : Nat
  username : Option String
  email : Option String
  phone : Option String
  nickname : Option String
deriving DecidableEq, Repr, Inhabited

/-- `TokenResponse` from `types/api.ts`: payload of successful login /
register / QR-confirm responses. -/
structure TokenResponse where
  access_token : String
  refresh_token : String
  token_type : String
  expires_in : Nat
  user : UserResponse
deriving DecidableEq, Repr, Inhabited

/-- The token pair carried by a successful call to the refresh endpoint
(`data` of `ApiResponse<{access_token, refresh_token}>`). -/
structure RefreshTokens where
  access_token : String
  refresh_token : String
deriving DecidableEq, Repr, Inhabited

/-- A thrown request failure: `handleResponse` attaches the numeric HTTP
status to the error it throws; timeout and network errors carry no status
(`status = none`). -/
structure HErr where
  status : Option Nat
  msg : String
deriving DecidableEq, Repr, Inhabited

/-- Outcome of one network attempt: the parsed body, or a thrown error. -/
inductive Outcome (α : Type) where
  | ok : α → Outcome α
  | err : HErr → Outcome α
deriving DecidableEq, Repr

/-- The credential store: the `access_token` and `refresh_token` keys of
localStorage.  `none` models an absent key. -/
structure Store where
  access_token : Option String
  refresh_token : Option String
deriving DecidableEq, Repr, Inhabited

/-- A network call made by the pipeline: the original request (also when
re-issued) or a call to the refresh endpoint. -/
inductive Call where
  | original
  | refreshCall
deriving DecidableEq, Repr, BEq

/-- The network environment of one `request` invocation: the outcome of the
first attempt of the request, of the (at most one) refresh call, and of the
(at most one) re-issued original request. -/
structure Env (α : Type) where
  first : Outcome α
  refresh : Outcome RefreshTokens
  retry : Outcome α
deriving DecidableEq, Repr

/-- Result of running the pipeline: the value returned or error thrown to
the caller, the final credential store, whether `window.location.href` was
assigned (redirect to the sign-in page), and the trace of network calls. -/
structure PipelineResult (α : Type) where
  result : Outcome α
  store : Store
  redirected : Bool
  calls : List Call
deriving DecidableEq, Repr

/-- `pat` occurs as a contiguous sublist of `l` (the semantics of
JavaScript `String.prototype.includes` on the character lists). -/
def containsSub (pat : List Char) : List Char → Bool
  | [] => decide (pat = [])
  | c :: rest => pat.isPrefixOf (c :: rest) || containsSub pat rest

/-- JavaScript `s.includes(pat)`. -/
def strIncludes (s pat : String) : Bool :=
  containsSub pat.toList s.toList

/-- The guard at the top of `handleAuthError`:
`url.includes('/auth/login') || url.includes('/auth/refresh')`. -/
def isAuthUrl (url : String) : Bool :=
  strIncludes url "/auth/login" || strIncludes url "/auth/refresh"

/-- `handleAuthError` from `services/api.ts`, called by `request` when the
first attempt threw an error with `status === 401`.  The returned `calls`
field lists only the network calls made inside `handleAuthError` itself. -/
def handleAuthError {α : Type} (url : String) (env : Env α) (s : Store) :
    PipelineResult α :=
  if isAuthUrl url then
    { result := .err ⟨none, "认证失败"⟩, store := s, redirected := false,
      calls := [] }
  else
    match s.refresh_token with
    | none =>
      { result := .err ⟨none, "没有刷新令牌"⟩, store := ⟨none, none⟩,
        redirected := true, calls := [] }
    | some _ =>
      match env.refresh with
      | .err e =>
        { result := .err e, store := ⟨none, none⟩, redirected := true,
          calls := [.refreshCall] }
      | .ok toks =>
        match env.retry with
        | .ok v =>
          { result := .ok v,
            store := ⟨some toks.access_token, some toks.refresh_token⟩,
            redirected := false, calls := [.refreshCall, .original] }
        | .err e =>
          { result := .err e, store := ⟨none, none⟩, redirected := true,
            calls := [.refreshCall, .original] }

/-- `request` from `services/api.ts`: one attempt, and on a thrown error
with `status === 401` the `handleAuthError` recovery path. -/
def request {α : Type} (url : String) (env : Env α) (s : Store) :
    PipelineResult α :=
  match env.first with
  | .ok v => { result := .ok v, store := s, redirected := false,
               calls := [.original] }
  | .err e =>
    if e.status = some 401 then
      let r := handleAuthError url env s
      { r with calls := .original :: r.calls }
    else
      { result := .err e, store := s, redirected := false,
        calls := [.original] }

/-- The zustand auth store state (`AuthState` in `stores/auth.ts`,
data fields only). -/
structure AuthState where
  user : Option UserResponse
  accessToken : Option String
  refreshToken : Option String
  isAuthenticated : Bool
  isLoading : Bool
deriving DecidableEq, Repr, Inhabited

/-- Combined client state: the localStorage credential keys plus the
zustand auth store. -/
structure ClientState where
  storage : Store
  auth : AuthState
deriving DecidableEq, Repr, Inhabited

/-- The argument of `setTokens`:
`{ access_token: string; refresh_token: string; user: UserResponse }`. -/
structure TokensArg where
  access_token : String
  refresh_token : String
  user : UserResponse
deriving DecidableEq, Repr, Inhabited

/-- `login` from `stores/auth.ts`.  The outcome of
`authService.login(...)` (the `response.data` payload or the thrown
error) is supplied by `res`; the returned `Option HErr` is the error
rethrown to the caller (`none` on success). -/
def login (res : Outcome TokenResponse) (st : ClientState) :
    ClientState × Option HErr :=
  let busy : ClientState := { st with auth.isLoading := true }
  match res with
  | .ok r =>
    ({ storage := ⟨some r.access_token, some r.refresh_token⟩,
       auth := { user := some r.user, accessToken := some r.access_token,
                 refreshToken := some r.refresh_token,
                 isAuthenticated := true, isLoading := false } }, none)
  | .err e => ({ busy with auth.isLoading := false }, some e)

/-- `register` from `stores/auth.ts`: same shape as `login`, against the
registration endpoint. -/
def register (res : Outcome TokenResponse) (st : ClientState) :
    ClientState × Option HErr :=
  let busy : ClientState := { st with auth.isLoading := true }
  match res with
  | .ok r =>
    ({ storage := ⟨some r.access_token, some r.refresh_token⟩,
       auth := { user := some r.user, accessToken := some r.access_token,
                 refreshToken := some r.refresh_token,
                 isAuthenticated := true, isLoading := false } }, none)
  | .err e => ({ busy with auth.isLoading := false }, some e)

/-- `logout` from `stores/auth.ts`: the network call
`authService.logout()` is best-effort (`netFails` says whether it threw;
the catch block only logs), and the `finally` block unconditionally
removes both localStorage keys and resets the store. -/
def logout (netFails : Bool) (st : ClientState) : ClientState :=
  let _ := netFails
  let _ := st
  { storage := ⟨none, none⟩,
    auth := { user := none, accessToken := none, refreshToken := none,
              isAuthenticated := false, isLoading := false } }

/-- `setTokens` from `stores/auth.ts`: store both tokens in localStorage
and set the session authenticated (`isLoading` is not touched). -/
def setTokens (t : TokensArg) (st : ClientState) : ClientState :=
  { storage := ⟨some t.access_token, some t.refresh_token⟩,
    auth := { st.auth with
              user := some t.user,
              accessToken := some t.access_token,
              refreshToken := some t.refresh_token,
              isAuthenticated := true } }

/-- `clearAuth` from `stores/auth.ts`. -/
def clearAuth (st : ClientState) : ClientState :=
  let _ := st
  { storage := ⟨none, none⟩,
    auth := { user := none, accessToken := none, refreshToken := none,
              isAuthenticated := false, isLoading := false } }

/-- `refreshUserInfo` from `stores/auth.ts`: on success replace the user
record; on failure fall back to `clearAuth` (the error is logged, not
rethrown). -/
def refreshUserInfo (res : Outcome UserResponse) (st : ClientState) :
    ClientState :=
  match res with
  | .ok u => { st with auth.user := some u }
  | .err _ => clearAuth st

/-- `setLoading` from `stores/auth.ts`. -/
def setLoading (b : Bool) (st : ClientState) : ClientState :=
  { st with auth.isLoading := b }

/-- One invocation of a session-store operation together with the network
outcome it observes. -/
inductive Action where
  | login (res : Outcome TokenResponse)
  | register (res : Outcome TokenResponse)
  | logout (netFails : Bool)
  | setTokens (t : TokensArg)
  | clearAuth
  | refreshUserInfo (res : Outcome UserResponse)
  | setLoading (b : Bool)

/-- The state transformer of a session-store operation (rethrown errors
discarded). -/
def stepAuth : Action → ClientState → ClientState
  | .login res, st => (login res st).1
  | .register res, st => (register res st).1
  | .logout b, st => logout b st
  | .setTokens t, st => setTokens t st
  | .clearAuth, st => clearAuth st
  | .refreshUserInfo res, st => refreshUserInfo res st
  | .setLoading b, st => setLoading b st

/-- The session-store invariant: authenticated implies user and both
tokens present, and the two tokens are both present or both absent. -/
abbrev Inv (a : AuthState) : Prop :=
  (a.isAuthenticated = true →
    a.user.isSome = true ∧ a.accessToken.isSome = true ∧
      a.refreshToken.isSome = true) ∧
  (a.accessToken.isSome = true ↔ a.refreshToken.isSome = true)

/-- QR login ceremony status (`QRStatus` on the QR login page; `loading`
is the local placeholder before the ceremony exists). -/
inductive QRStatus where
  | pending
  | scanned
  | confirmed
  | expired
  | cancelled
  | loading
deriving DecidableEq, Repr, Inhabited

/-- `QRLoginCreateResponse` payload held in the page's `qrData` state. -/
structure QRData where
  scene_id : String
  qr_url : String
  expires_at : String
deriving DecidableEq, Repr, Inhabited

/-- `QRLoginStatusResponse` from `types/api.ts`: the polled ceremony
status with optional user and token payloads. -/
structure QRLoginStatusResponse where
  status : QRStatus
  user : Option UserResponse
  token : Option TokenResponse
deriving DecidableEq, Repr, Inhabited

/-- The QR login page state: the ceremony data, the displayed status,
whether the interval timer is set (`intervalRef.current !== null`), the
session-store state it mutates through `setTokens`, and whether
`navigate('/dashboard')` was called. -/
structure PollerState where
  qrData : Option QRData
  status : QRStatus
  timerActive : Bool
  session : ClientState
  navigated : Bool
deriving DecidableEq, Repr, Inhabited

/-- `stopPolling`: clear the interval timer if set; otherwise do
nothing.  Makes no network call. -/
def stopPolling (st : PollerState) : PollerState :=
  { st with timerActive := false }

/-- The body of the interval callback installed by `startPolling`,
applied to the outcome of one `authService.getQRLoginStatus` call.
`setStatus(qrStatus)` runs first; then `confirmed` with a token adopts
the credentials via `setTokens`, stops polling and navigates; `expired`
or `cancelled` stops polling; any thrown error stops polling and forces
`expired`. -/
def pollTickBody (res : Outcome QRLoginStatusResponse) (st : PollerState) :
    PollerState :=
  match res with
  | .err _ => { (stopPolling st) with status := .expired }
  | .ok r =>
    let st1 : PollerState := { st with status := r.status }
    match r.status, r.token with
    | .confirmed, some tok =>
      let adopted := setTokens
        ⟨tok.access_token, tok.refresh_token, r.user.getD default⟩
        st1.session
      { (stopPolling { st1 with session := adopted }) with navigated := true }
    | .expired, _ => stopPolling st1
    | .cancelled, _ => stopPolling st1
    | _, _ => st1

/-- Run a sequence of poll responses against the poller: the interval
callback fires (and a status request is made) only while the timer is
active.  Returns the final state and the number of status requests
actually issued. -/
def runPolls : List (Outcome QRLoginStatusResponse) → PollerState →
    PollerState × Nat
  | [], st => (st, 0)
  | r :: rs, st =>
    if st.timerActive then
      let p := runPolls rs (pollTickBody r st)
      (p.1, p.2 + 1)
    else
      runPolls rs st

/-! ## Theorems about the authenticated request pipeline -/

/-- Claim C1 (single-retry law): a request on a non-auth path that fails
with httpStatus 401, followed by a successful refresh call, whose
re-issued original request fails with 401 again, surfaces the second 401
failure to the caller, and the call trace contains exactly one call to
the refresh endpoint — no further refresh is attempted. -/
theorem single_retry_law {α : Type} (url : String) (env : Env α) (s : Store)
    (e1 : HErr) (toks : RefreshTokens) (e2 : HErr)
    (hurl : isAuthUrl url = false) (h1 : env.first = .err e1)
    (h1s : e1.status = some 401) (hrt : s.refresh_token.isSome = true)
    (hr : env.refresh = .ok toks) (h2 : env.retry = .err e2)
    (h2s : e2.status = some 401) :
    (request url env s).result = .err e2 ∧
    (request url env s).calls = [.original, .refreshCall, .original] ∧
    (request url env s).calls.count .refreshCall = 1 := by
  cases hsome : s.refresh_token with
  | none => rw [hsome] at hrt; simp at hrt
  | some rt =>
    have hreq : request url env s =
        { result := .err e2, store := ⟨none, none⟩, redirected := true,
          calls := [.original, .refreshCall, .original] } := by
      simp [request, handleAuthError, h1, h1s, hurl, hsome, hr, h2]
    rw [hreq]
    exact ⟨rfl, rfl, rfl⟩

/-- Witness for C1 at a concrete input: non-auth path, first attempt 401,
refresh succeeds with a new pair, retry fails with 401 again; the second
401 is what the caller sees. -/
theorem single_retry_law_witness :
    isAuthUrl "/api/v1/users/me" = false ∧
    (request "/api/v1/users/me"
      (⟨.err ⟨some 401, "unauthorized"⟩, .ok ⟨"A2", "R2"⟩,
        .err ⟨some 401, "still unauthorized"⟩⟩ : Env String)
      ⟨some "A1", some "R1"⟩).result =
      .err ⟨some 401, "still unauthorized"⟩ :=
  ⟨rfl, (single_retry_law "/api/v1/users/me"
    ⟨.err ⟨some 401, "unauthorized"⟩, .ok ⟨"A2", "R2"⟩,
      .err ⟨some 401, "still unauthorized"⟩⟩
    ⟨some "A1", some "R1"⟩ ⟨some 401, "unauthorized"⟩ ⟨"A2", "R2"⟩
    ⟨some 401, "still unauthorized"⟩
    rfl rfl rfl rfl rfl rfl rfl).1⟩

/-- Claim C2: a 401 on a non-auth path with no refresh token in the
store fails immediately with the authentication-required failure, makes
zero calls to the refresh endpoint, and removes both credential keys. -/
theorem auth_expired_no_refresh_token {α : Type} (url : String)
    (env : Env α) (s : Store) (e : HErr)
    (hurl : isAuthUrl url = false) (h1 : env.first = .err e)
    (h1s : e.status = some 401) (hrt : s.refresh_token = none) :
    (request url env s).result = .err ⟨none, "没有刷新令牌"⟩ ∧
    (request url env s).calls = [.original] ∧
    (request url env s).calls.count .refreshCall = 0 ∧
    (request url env s).store = ⟨none, none⟩ := by
  have hreq : request url env s =
      { result := .err ⟨none, "没有刷新令牌"⟩, store := ⟨none, none⟩,
        redirected := true, calls := [.original] } := by
    simp [request, handleAuthError, h1, h1s, hurl, hrt]
  rw [hreq]
  exact ⟨rfl, rfl, rfl, rfl⟩

/-- Witness for C2 at a concrete input: access token present but refresh
token absent; the request fails at once and both keys end removed. -/
theorem auth_expired_no_refresh_token_witness :
    isAuthUrl "/api/v1/users/me" = false ∧
    (request "/api/v1/users/me"
      (⟨.err ⟨some 401, "unauthorized"⟩, .err ⟨none, "unused"⟩,
        .err ⟨none, "unused"⟩⟩ : Env String)
      ⟨some "A1", none⟩).store = ⟨none, none⟩ :=
  ⟨rfl, (auth_expired_no_refresh_token "/api/v1/users/me"
    ⟨.err ⟨some 401, "unauthorized"⟩, .err ⟨none, "unused"⟩,
      .err ⟨none, "unused"⟩⟩
    ⟨some "A1", none⟩ ⟨some 401, "unauthorized"⟩
    rfl rfl rfl rfl).2.2.2⟩

/-- Counterexample to claim C3: a sign-in request failing with 401 does
NOT surface the original failure unchanged — the surfaced error lacks the
original httpStatus (401) and body. -/
theorem auth_path_passthrough_counterexample :
    (request "/api/v1/auth/login"
      (⟨.err ⟨some 401, "invalid credentials"⟩, .err ⟨none, "unused"⟩,
        .err ⟨none, "unused"⟩⟩ : Env String)
      ⟨some "A1", some "R1"⟩).result ≠
      .err ⟨some 401, "invalid credentials"⟩ := by decide

/-- Claim C3 as amended: a 401 on the sign-in or refresh endpoint
triggers no recovery cycle (no refresh call, store untouched, no
redirect), but the surfaced failure is a newly constructed generic
authentication failure (message `认证失败`, no httpStatus, no body)
rather than the original failure. -/
theorem auth_path_no_recovery {α : Type} (url : String) (env : Env α)
    (s : Store) (e : HErr)
    (hurl : isAuthUrl url = true) (h1 : env.first = .err e)
    (h1s : e.status = some 401) :
    request url env s =
      { result := .err ⟨none, "认证失败"⟩, store := s, redirected := false,
        calls := [.original] } := by
  simp [request, handleAuthError, h1, h1s, hurl]

/-- Witness for the amended C3 at a concrete input: the login endpoint
with a 401 yields the generic failure and a single original call. -/
theorem auth_path_no_recovery_witness :
    isAuthUrl "/api/v1/auth/login" = true ∧
    request "/api/v1/auth/login"
      (⟨.err ⟨some 401, "invalid credentials"⟩, .err ⟨none, "unused"⟩,
        .err ⟨none, "unused"⟩⟩ : Env String)
      ⟨some "A1", some "R1"⟩ =
      { result := .err ⟨none, "认证失败"⟩, store := ⟨some "A1", some "R1"⟩,
        redirected := false, calls := [.original] } :=
  ⟨rfl, auth_path_no_recovery "/api/v1/auth/login"
    ⟨.err ⟨some 401, "invalid credentials"⟩, .err ⟨none, "unused"⟩,
      .err ⟨none, "unused"⟩⟩
    ⟨some "A1", some "R1"⟩ ⟨some 401, "invalid credentials"⟩ rfl rfl rfl⟩

/-! ## Theorems about the session store -/

/-- Claim C4: `logout`, whether the network logout call succeeds or
throws, ends with both credential keys removed from the store and the
session state reset to anonymous (user null, both tokens null,
authenticated false, busy false). -/
theorem logout_clears (netFails : Bool) (st : ClientState) :
    (logout netFails st).storage = ⟨none, none⟩ ∧
    (logout netFails st).auth = ⟨none, none, none, false, false⟩ :=
  ⟨rfl, rfl⟩

/-- Claim C5 (round-trip): `setTokens` immediately authenticates with
the given identity and pair (also persisted to the store); a subsequent
`refreshUserInfo` whose fetch fails performs the `clearAuth` clearing —
authenticated becomes false and credentials and identity are wiped. -/
theorem adopt_then_failed_refresh (t : TokensArg) (st : ClientState)
    (e : HErr) :
    (setTokens t st).auth.isAuthenticated = true ∧
    (setTokens t st).auth.user = some t.user ∧
    (setTokens t st).auth.accessToken = some t.access_token ∧
    (setTokens t st).auth.refreshToken = some t.refresh_token ∧
    (setTokens t st).storage = ⟨some t.access_token, some t.refresh_token⟩ ∧
    refreshUserInfo (.err e) (setTokens t st) = clearAuth (setTokens t st) ∧
    (refreshUserInfo (.err e) (setTokens t st)).auth =
      ⟨none, none, none, false, false⟩ ∧
    (refreshUserInfo (.err e) (setTokens t st)).storage = ⟨none, none⟩ :=
  ⟨rfl, rfl, rfl, rfl, rfl, rfl, rfl, rfl⟩

/-- Claim C9 (frame on failed authentication): a failing `login` or
`register` leaves identity, both tokens and the authenticated flag
exactly as they were, clears the busy flag, and rethrows the failure. -/
theorem failed_auth_frame (e : HErr) (st : ClientState) :
    login (.err e) st = ({ st with auth.isLoading := false }, some e) ∧
    (login (.err e) st).1.auth.user = st.auth.user ∧
    (login (.err e) st).1.auth.accessToken = st.auth.accessToken ∧
    (login (.err e) st).1.auth.refreshToken = st.auth.refreshToken ∧
    (login (.err e) st).1.auth.isAuthenticated = st.auth.isAuthenticated ∧
    (login (.err e) st).1.auth.isLoading = false ∧
    register (.err e) st = ({ st with auth.isLoading := false }, some e) ∧
    (register (.err e) st).1.auth.user = st.auth.user ∧
    (register (.err e) st).1.auth.accessToken = st.auth.accessToken ∧
    (register (.err e) st).1.auth.refreshToken = st.auth.refreshToken ∧
    (register (.err e) st).1.auth.isAuthenticated = st.auth.isAuthenticated ∧
    (register (.err e) st).1.auth.isLoading = false :=
  ⟨rfl, rfl, rfl, rfl, rfl, rfl, rfl, rfl, rfl, rfl, rfl, rfl⟩

/-- Claim C8: every session-store operation preserves the invariant
that `isAuthenticated` implies user and both tokens are present, and
that the two tokens are both present or both absent. -/
theorem session_invariant (act : Action) (st : ClientState)
    (h : Inv st.auth) : Inv (stepAuth act st).auth := by
  obtain ⟨⟨sa, sr⟩, ⟨u, a, r, ia, il⟩⟩ := st
  cases act with
  | login res =>
    cases res with
    | ok t => simp [stepAuth, login, Inv]
    | err e => simpa [stepAuth, login, Inv] using h
  | register res =>
    cases res with
    | ok t => simp [stepAuth, register, Inv]
    | err e => simpa [stepAuth, register, Inv] using h
  | logout b => simp [stepAuth, logout, Inv]
  | setTokens t => simp [stepAuth, setTokens, Inv]
  | clearAuth => simp [stepAuth, clearAuth, Inv]
  | refreshUserInfo res =>
    cases res with
    | ok v =>
      obtain ⟨h1, h2⟩ := h
      exact ⟨fun ha => ⟨rfl, (h1 ha).2⟩, h2⟩
    | err e => simp [stepAuth, refreshUserInfo, clearAuth, Inv]
  | setLoading b => simpa [stepAuth, setLoading, Inv] using h

/-- Witness for C8 at a concrete input: the anonymous state satisfies
the invariant, and `setTokens` preserves it. -/
theorem session_invariant_witness :
    Inv (⟨⟨none, none⟩, ⟨none, none, none, false, false⟩⟩ :
      ClientState).auth ∧
    Inv (stepAuth
      (.setTokens ⟨"A1", "R1", ⟨7, 1, none, none, none, none⟩⟩)
      ⟨⟨none, none⟩, ⟨none, none, none, false, false⟩⟩).auth :=
  ⟨⟨fun hc => absurd hc (by simp), Iff.rfl⟩,
   session_invariant (.setTokens ⟨"A1", "R1", ⟨7, 1, none, none, none, none⟩⟩)
     ⟨⟨none, none⟩, ⟨none, none, none, false, false⟩⟩
     ⟨fun hc => absurd hc (by simp), Iff.rfl⟩⟩

/-! ## Theorems about the out-of-band login poller -/

/-- When the interval timer is not set, no poll callback fires: no
status request is issued and the state is unchanged. -/
theorem runPolls_inactive (rs : List (Outcome QRLoginStatusResponse))
    (st : PollerState) (h : st.timerActive = false) :
    runPolls rs st = (st, 0) := by
  induction rs with
  | nil => rfl
  | cons r rs ih => simp [runPolls, h, ih]

/-- Claim C7: poller teardown is idempotent — a second `stopPolling` is
a no-op, and after teardown the timer is cleared so no poll request ever
fires again, for every poller state including already-stopped ones. -/
theorem stopPolling_idempotent (st : PollerState) :
    stopPolling (stopPolling st) = stopPolling st ∧
    (stopPolling st).timerActive = false ∧
    ∀ rs, runPolls rs (stopPolling st) = (stopPolling st, 0) :=
  ⟨rfl, rfl, fun rs => runPolls_inactive rs _ rfl⟩

/-- Claim C6 (poller step function): while polling, `pending` keeps the
state pending with the timer running, `scanned` moves to scanned and
polling continues, `confirmed` with a token payload stops the timer,
adopts the credentials into the session (authenticated with that pair)
and no further poll calls occur, `expired` and `cancelled` stop the
timer in that terminal state, and any transport/parse failure stops the
timer and forces terminal state `expired`. -/
theorem poll_step_behavior (st : PollerState) (h : st.timerActive = true) :
    (∀ u t, pollTickBody (.ok ⟨.pending, u, t⟩) st =
        { st with status := .pending } ∧
      (pollTickBody (.ok ⟨.pending, u, t⟩) st).timerActive = true) ∧
    (∀ u t, pollTickBody (.ok ⟨.scanned, u, t⟩) st =
        { st with status := .scanned } ∧
      (pollTickBody (.ok ⟨.scanned, u, t⟩) st).timerActive = true) ∧
    (∀ u tok,
      (pollTickBody (.ok ⟨.confirmed, u, some tok⟩) st).timerActive = false ∧
      (pollTickBody (.ok ⟨.confirmed, u, some tok⟩) st).status = .confirmed ∧
      (pollTickBody (.ok ⟨.confirmed, u, some tok⟩) st).session =
        setTokens ⟨tok.access_token, tok.refresh_token, u.getD default⟩
          st.session ∧
      (pollTickBody
        (.ok ⟨.confirmed, u, some tok⟩) st).session.auth.isAuthenticated =
        true ∧
      (pollTickBody
        (.ok ⟨.confirmed, u, some tok⟩) st).session.auth.accessToken =
        some tok.access_token ∧
      (pollTickBody
        (.ok ⟨.confirmed, u, some tok⟩) st).session.auth.refreshToken =
        some tok.refresh_token ∧
      ∀ rs, runPolls rs (pollTickBody (.ok ⟨.confirmed, u, some tok⟩) st) =
        (pollTickBody (.ok ⟨.confirmed, u, some tok⟩) st, 0)) ∧
    (∀ u t, pollTickBody (.ok ⟨.expired, u, t⟩) st =
        stopPolling { st with status := .expired } ∧
      (pollTickBody (.ok ⟨.expired, u, t⟩) st).timerActive = false) ∧
    (∀ u t, pollTickBody (.ok ⟨.cancelled, u, t⟩) st =
        stopPolling { st with status := .cancelled } ∧
      (pollTickBody (.ok ⟨.cancelled, u, t⟩) st).timerActive = false) ∧
    (∀ e, pollTickBody (.err e) st =
        stopPolling { st with status := .expired } ∧
      (pollTickBody (.err e) st).status = .expired ∧
      (pollTickBody (.err e) st).timerActive = false) :=
  ⟨fun _ _ => ⟨rfl, h⟩,
   fun _ _ => ⟨rfl, h⟩,
   fun _ _ => ⟨rfl, rfl, rfl, rfl, rfl, rfl,
     fun rs => runPolls_inactive rs _ rfl⟩,
   fun _ _ => ⟨rfl, rfl⟩,
   fun _ _ => ⟨rfl, rfl⟩,
   fun _ => ⟨rfl, rfl, rfl⟩⟩

/-- Witness for C6 at a concrete input: an active poller receiving a
`pending` response stays pending, and receiving `confirmed` with a token
pair stops the timer with the pair adopted. -/
theorem poll_step_behavior_witness :
    (⟨some ⟨"S1", "qr://S1", "2025-01-01"⟩, .pending, true,
      ⟨⟨none, none⟩, ⟨none, none, none, false, false⟩⟩, false⟩ :
      PollerState).timerActive = true ∧
    pollTickBody (.ok ⟨.pending, none, none⟩)
      ⟨some ⟨"S1", "qr://S1", "2025-01-01"⟩, .pending, true,
        ⟨⟨none, none⟩, ⟨none, none, none, false, false⟩⟩, false⟩ =
      ⟨some ⟨"S1", "qr://S1", "2025-01-01"⟩, .pending, true,
        ⟨⟨none, none⟩, ⟨none, none, none, false, false⟩⟩, false⟩ ∧
    (pollTickBody
      (.ok ⟨.confirmed, some ⟨7, 1, none, none, none, none⟩,
        some ⟨"A2", "R2", "bearer", 3600, ⟨7, 1, none, none, none, none⟩⟩⟩)
      ⟨some ⟨"S1", "qr://S1", "2025-01-01"⟩, .pending, true,
        ⟨⟨none, none⟩, ⟨none, none, none, false, false⟩⟩,
        false⟩).timerActive = false :=
  ⟨rfl,
   ((poll_step_behavior
      ⟨some ⟨"S1", "qr://S1", "2025-01-01"⟩, .pending, true,
        ⟨⟨none, none⟩, ⟨none, none, none, false, false⟩⟩, false⟩
      rfl).1 none none).1,
   ((poll_step_behavior
      ⟨some ⟨"S1", "qr://S1", "2025-01-01"⟩, .pending, true,
        ⟨⟨none, none⟩, ⟨none, none, none, false, false⟩⟩, false⟩
      rfl).2.2.1 (some ⟨7, 1, none, none, none, none⟩)
      ⟨"A2", "R2", "bearer", 3600, ⟨7, 1, none, none, none, none⟩⟩).1⟩

/-- Claim C10 (implicit edge case): a `confirmed` status response with
no token payload sets the displayed status to confirmed but does not
stop the timer and adopts no credentials — polling continues. -/
theorem confirmed_without_token_keeps_polling (st : PollerState)
    (h : st.timerActive = true) (u : Option UserResponse) :
    pollTickBody (.ok ⟨.confirmed, u, none⟩) st =
      { st with status := .confirmed } ∧
    (pollTickBody (.ok ⟨.confirmed, u, none⟩) st).timerActive = true ∧
    (pollTickBody (.ok ⟨.confirmed, u, none⟩) st).session = st.session :=
  ⟨rfl, h, rfl⟩

/-- Witness for C10 at a concrete input: an active poller receiving
`confirmed` without a token keeps its timer running and its session
unchanged. -/
theorem confirmed_without_token_keeps_polling_witness :
    (⟨some ⟨"S1", "qr://S1", "2025-01-01"⟩, .scanned, true,
      ⟨⟨none, none⟩, ⟨none, none, none, false, false⟩⟩, false⟩ :
      PollerState).timerActive = true ∧
    (pollTickBody (.ok ⟨.confirmed, none, none⟩)
      ⟨some ⟨"S1", "qr://S1", "2025-01-01"⟩, .scanned, true,
        ⟨⟨none, none⟩, ⟨none, none, none, false, false⟩⟩,
        false⟩).timerActive = true :=
  ⟨rfl,
   (confirmed_without_token_keeps_polling
      ⟨some ⟨"S1", "qr://S1", "2025-01-01"⟩, .scanned, true,
        ⟨⟨none, none⟩, ⟨none, none, none, false, false⟩⟩, false⟩
      rfl none).2.1⟩

end Authing
